import Mathlib

/-!
Verification of the conversational-turn orchestration pipeline of the
Multi-Agentic Conversational AI System: a shallow embedding of the enhanced
chat route handler (`getPropertyContext` and the `POST` handler) together
with proofs of the specified properties.

External I/O (fetch calls to the session service, the property search
service, the market-summary endpoint, and the model provider) is modelled
by an explicit environment record describing the outcome of each call; the
handler is embedded as a pure function from the parsed request body and
that environment to a response value plus an ordered trace of the side
effects (outbound requests) it issues.
-/

namespace ChatRoute

/-- Outcome of one `fetch` call as the handler observes it: a successful
response with parsed JSON payload (`response.ok` true), a response with a
non-success status (`response.ok` false), or a thrown error (network
failure, or a runtime error while reading the payload). -/
inductive FetchRes (α : Type) where
  | ok (a : α)
  | httpErr
  | thrown
deriving DecidableEq, Repr

/-- A JavaScript value as far as the checks of the handler observe it: either a
string, or any non-string value of which only truthiness matters (the
handler only ever applies truthiness tests and a `typeof`-string test to
non-string values). -/
inductive JSVal where
  | vstr (s : String)
  | vother (truthy : Bool)
deriving DecidableEq, Repr

/-- JavaScript truthiness of a modelled value: a string is truthy iff it is
non-empty. -/
def JSVal.truthy : JSVal → Bool
  | .vstr s => s ≠ ""
  | .vother b => b

/-- JS truthiness of an optional string variable (`undefined` or a string):
`undefined` and `""` are falsy. -/
def jsTruthy (o : Option String) : Bool :=
  o.getD "" ≠ ""

/-- JS `String.prototype.toLowerCase`, character by character (the
keywords and queries of interest are ASCII, where JS and `Char.toLower`
agree). -/
def jsToLower (s : String) : String :=
  ⟨s.data.map Char.toLower⟩

/-- JS `String.prototype.trim`: strip leading and trailing whitespace
(ASCII whitespace, which is what the validation cares about). -/
def jsTrim (s : String) : String :=
  ⟨((s.data.dropWhile Char.isWhitespace).reverse.dropWhile
      Char.isWhitespace).reverse⟩

/-- Containment of `needle` as a contiguous substring of `hay`
(JS `hay.includes(needle)` on the underlying character sequences). -/
def isSub (needle : List Char) : List Char → Bool
  | [] => needle.isEmpty
  | c :: t => needle.isPrefixOf (c :: t) || isSub needle t

/-- JS `hay.includes(needle)` on strings. -/
def jsIncludes (hay needle : String) : Bool :=
  isSub needle.data hay.data

/-- The fixed property-keyword set of `getPropertyContext`. -/
def propertyKeywords : List String :=
  ["property", "properties", "rent", "rental", "square feet", "sf", "sqft",
   "floor", "suite", "broker", "associate", "annual rent", "monthly rent",
   "building", "address", "broadway", "avenue", "street", "lease", "market"]

/-- The `isPropertyQuery` check of `getPropertyContext`: some keyword is a
case-insensitive substring of the query
(`query.toLowerCase().includes(keyword.toLowerCase())`). -/
def isPropertyQuery (query : String) : Bool :=
  propertyKeywords.any (fun keyword =>
    jsIncludes (jsToLower query) (jsToLower keyword))

/-- One search result as consumed by the handler: it only reads
`result.property.formatted_info`. -/
structure PropResult where
  formattedInfo : String
deriving DecidableEq, Repr

/-- The market-summary payload fields the handler reads; each is read with
a `|| 0` default, modelled by `Option` plus `getD 0`. The handler renders
them with `toLocaleString`, modelled here as decimal rendering (locale
digit grouping abstracted away; no claim depends on grouping). -/
structure MarketSummary where
  totalProperties : Option Nat
  averageRent : Option Nat
  averageSize : Option Nat
deriving DecidableEq, Repr

/-- One persisted message as returned by the history endpoint: the handler
reads `msg.sender` and `msg.content`. -/
structure HistoryMsg where
  sender : String
  content : String
deriving DecidableEq, Repr

/-- Outcomes of the external calls a single turn can issue. `model` is the
model-provider call: `some t` means `streamText` succeeds and the full
streamed text is `t`; `none` means it throws (caught by the outer handler,
producing a 500). -/
structure Env where
  sessionCreate : FetchRes String
  historyFetch : FetchRes (List HistoryMsg)
  appendUser : FetchRes Unit
  search : FetchRes (List PropResult)
  market : FetchRes MarketSummary
  model : Option String

/-- The numbered record lines of the dynamic context: the handler appends
one line per returned result via
`context += (index+1) + ". " + prop.formatted_info + "\n"`. -/
def recordLines (results : List PropResult) : List String :=
  results.enum.map (fun p =>
    toString (p.1 + 1) ++ ". " ++ p.2.formattedInfo ++ "\n")

/-- The market-overview block appended when the market-summary fetch
returns a success status. -/
def marketBlock (s : MarketSummary) : String :=
  "\nMARKET OVERVIEW:\n" ++
  "Total Properties: " ++ toString (s.totalProperties.getD 0) ++ "\n" ++
  "Average Annual Rent: $" ++ toString (s.averageRent.getD 0) ++ "\n" ++
  "Average Size: " ++ toString (s.averageSize.getD 0) ++ " sq ft\n"

/-- Trailer appended to every non-empty dynamic context. -/
def propertyTrailer : String :=
  "\n\nUse this specific property data to provide accurate, helpful responses."

/-- The `getPropertyContext` function: empty for non-property queries; otherwise built
from the search results, with every failure contacting the services
(thrown error or non-success status on the search call) swallowed to the
empty string. A thrown error on the market-summary call is raised inside
the same `try` block, so it is caught and the whole dynamic context
collapses to the empty string; a non-success status on that call merely
skips the market-overview block. -/
def getPropertyContext (env : Env) (query : String) : String :=
  if ¬ isPropertyQuery query then ""
  else
    match env.search with
    | .thrown => ""
    | .httpErr => ""
    | .ok results =>
      if results.length = 0 then ""
      else
        let ctx := "\n\nRELEVANT PROPERTY DATA:\n" ++
          String.join (recordLines results)
        match env.market with
        | .thrown => ""
        | .httpErr => ctx ++ propertyTrailer
        | .ok s => ctx ++ marketBlock s ++ propertyTrailer

/-- One entry of the module-level static knowledge base (the handler only
reads `content`; `embedding` is the empty list on every entry). -/
structure KBEntry where
  content : String
  embedding : List Nat := []

/-- The static knowledge base of the enhanced chat route. -/
def knowledgeBase : List KBEntry :=
  [⟨"OkADA & CO is a leading business consulting firm specializing in digital transformation and AI integration. We help companies modernize their operations and leverage cutting-edge technology.", []⟩,
   ⟨"Our services include strategic planning, process optimization, technology implementation, and change management. We work with Fortune 500 companies across various industries.", []⟩,
   ⟨"The company was founded in 2015 and has offices in New York, London, and Tokyo. We have a team of over 200 consultants and technology experts.", []⟩,
   ⟨"OkADA & CO manages a comprehensive commercial real estate portfolio with 225 properties across Manhattan. Our dataset includes detailed information about property addresses, floor plans, suite numbers, square footage (ranging from 9,000 to 20,000+ sq ft), and rental rates. Annual rents range from $750,000 to over $2 million. Our experienced associates include Jack Sparrow, Davy Jones, Elizabeth Swann, Will Turner, and many others who manage properties on locations like Broadway, Fifth Avenue, West 36th Street, and other prime Manhattan locations. We track monthly rent, annual rent, GCI over 3 years, and work with various building classes from Executive to Premium properties.", []⟩]

/-- The static portion of the assembled context:
`knowledgeBase.map(item => item.content).join("\n\n")`. -/
def staticContext : String :=
  String.intercalate "\n\n" (knowledgeBase.map KBEntry.content)

/-- The system-message content built around the assembled context
(template literal of the handler, with the context interpolated). -/
def systemPrompt (context : String) : String :=
  "You are an AI assistant for OkADA & CO, a business consulting firm with expertise in commercial real estate. Use the following context to answer questions about the company, provide business advice, and analyze property data. If you don\u0027t know something, say so honestly.\n\nContext:\n" ++
  context ++
  "\n\nWhen discussing properties, you can reference specific data points from the dataset. Always be professional, helpful, and provide actionable insights for commercial real estate decisions."

/-- One element of a client-supplied `messages` array; the handler reads
only `role` and `content` of the last element. -/
structure ChatTurn where
  role : String
  content : JSVal
deriving DecidableEq, Repr

/-- The parsed JSON request body, by shape: a `messages` array (AI SDK
format), a `message` field (custom format, any JS value), or neither.
`sessionId`, `userId`, `userEmail` are the optional string fields read
alongside. -/
inductive ReqBody where
  | withMessages (msgs : List ChatTurn)
      (sessionId userId userEmail : Option String)
  | withMessage (message : JSVal)
      (sessionId userId userEmail : Option String)
  | neither
deriving DecidableEq, Repr

/-- A message of the outbound model message list (role plus content). -/
structure OutMsg where
  role : String
  content : String
deriving DecidableEq, Repr

/-- One outbound request issued by the handler, in issue order.
`createSession` carries the `user_id`, `user_email` and `title` fields of
its body (the source also sends no others); `appendUserMsg` and
`appendAssistantMsg` carry the session id and the `content` field (the
`sender` field is fixed by the constructor and timestamp/usage metadata is
not modelled); `searchProps` carries the query and the `limit` parameter;
`callModel` carries the outbound message list. -/
inductive Effect where
  | createSession (userId userEmail : Option String) (title : String)
  | fetchHistory (sessionId : String)
  | appendUserMsg (sessionId content : String)
  | searchProps (query : String) (limit : Nat)
  | fetchMarket
  | callModel (messages : List OutMsg)
  | appendAssistantMsg (sessionId content : String)
deriving DecidableEq, Repr

/-- The requests `getPropertyContext` issues: the search call whenever the
query is property-related, and the market-summary call when the search
came back successful and non-empty (issued even if it then throws). -/
def propertyEffects (env : Env) (query : String) : List Effect :=
  if ¬ isPropertyQuery query then []
  else
    .searchProps query 3 ::
      (match env.search with
       | .ok results => if results.length = 0 then [] else [.fetchMarket]
       | _ => [])

/-- Shape dispatch and message extraction of the `POST` handler: a
`messages` array uses the last element (which must have role `user`), a
truthy `message` field is used as-is, anything else is the
invalid-format rejection. Returns the extracted message value plus the
`sessionId`/`userId`/`userEmail` fields, or the 400 response text. -/
def parseRequest :
    ReqBody → Except String (JSVal × Option String × Option String × Option String)
  | .withMessages msgs sid uid uem =>
    match msgs.getLast? with
    | some last =>
      if last.role = "user" then .ok (last.content, sid, uid, uem)
      else .error "No user message found"
    | none => .error "No user message found"
  | .withMessage m sid uid uem =>
    if m.truthy then .ok (m, sid, uid, uem)
    else .error "Invalid request format. Expected messages array or message string."
  | .neither =>
    .error "Invalid request format. Expected messages array or message string."

/-- The message validation of the handler:
`!message`, a non-string `typeof`, or an all-whitespace `trim` fails;
otherwise the string passes. -/
def validMessage : JSVal → Option String
  | .vstr s => if s = "" then none else if jsTrim s = "" then none else some s
  | .vother _ => none

/-- The title sent on session creation:
`message.substring(0, 50)` plus the three-dot marker when the length
exceeds 50, the message itself otherwise. -/
def sessionTitle (message : String) : String :=
  if message.length > 50 then ⟨message.data.take 50⟩ ++ "..." else message

/-- The response of the handler: a 400 with its text, the 500 of the outer
catch, or the streamed success response carrying the full streamed text
and the `X-Session-Id` header value. -/
inductive ChatResponse where
  | badRequest (text : String)
  | serverError
  | stream (text : String) (sessionHeader : String)
deriving DecidableEq, Repr

/-- Result of one turn: the response plus the ordered side-effect trace. -/
structure TurnResult where
  response : ChatResponse
  effects : List Effect
deriving DecidableEq, Repr

/-- Session resolution: a truthy supplied id is used as-is; otherwise a
creation call is issued and its returned `session_id` adopted when the
call succeeds (on failure the turn proceeds with no session id). -/
def resolveSession (sid uid uem : Option String) (message : String)
    (env : Env) : Option String × List Effect :=
  if jsTruthy sid then (sid, [])
  else
    match env.sessionCreate with
    | .ok newSid => (some newSid, [.createSession uid uem (sessionTitle message)])
    | _ => (none, [.createSession uid uem (sessionTitle message)])

/-- The history truncation `historyData.messages.slice(-10)`: the most recent 10 persisted
messages (all of them when fewer). -/
def truncatedHistory (msgs : List HistoryMsg) : List HistoryMsg :=
  msgs.drop (msgs.length - 10)

/-- Role mapping of fetched history entries:
role `user` for sender `user` and role `assistant` otherwise. -/
def toHistoryOut (m : HistoryMsg) : OutMsg :=
  ⟨if m.sender = "user" then "user" else "assistant", m.content⟩

/-- The conversation history folded into the outbound list: fetched only
under a truthy session id, truncated to the last 10 and role-mapped;
empty on any fetch failure and when there is no session id. -/
def historyForTurn (cur : Option String) (env : Env) : List OutMsg :=
  if jsTruthy cur then
    match env.historyFetch with
    | .ok msgs => (truncatedHistory msgs).map toHistoryOut
    | _ => []
  else []

/-- The outbound model message list: the system message carrying the
assembled context, the truncated history in order, the new user message
last. -/
def outboundMessages (cur : Option String) (env : Env) (message : String) :
    List OutMsg :=
  ⟨"system", systemPrompt (staticContext ++ getPropertyContext env message)⟩ ::
    historyForTurn cur env ++ [⟨"user", message⟩]

/-- The body of the `POST` handler past shape dispatch and message
validation: resolve or create the session, fetch and truncate history,
persist the user message, assemble context, call the model, and persist
the assistant message on completion — every step attempted only under a
truthy session id where the source guards it so. -/
def postValidated (sid uid uem : Option String) (message : String)
    (env : Env) : TurnResult :=
  let rs := resolveSession sid uid uem message env
  let cur := rs.1
  let histEffects :=
    if jsTruthy cur then [Effect.fetchHistory (cur.getD "")] else []
  let appendEffects :=
    if jsTruthy cur then [Effect.appendUserMsg (cur.getD "") message] else []
  let preModel :=
    rs.2 ++ histEffects ++ appendEffects ++
      propertyEffects env message ++
      [Effect.callModel (outboundMessages cur env message)]
  match env.model with
  | none => ⟨.serverError, preModel⟩
  | some t =>
    let finish :=
      if jsTruthy cur ∧ t ≠ "" then
        [Effect.appendAssistantMsg (cur.getD "") t]
      else []
    ⟨.stream t (cur.getD ""), preModel ++ finish⟩

/-- The `POST` handler of the enhanced chat route, as a function of the
parsed body and the external-call outcomes. Every failure of session
creation, history fetch, user-message append, property search or market
summary is caught locally and replaced by an empty or default value; only
a throwing model call reaches the outer catch (500). -/
def post (body : ReqBody) (env : Env) : TurnResult :=
  match parseRequest body with
  | .error e => ⟨.badRequest e, []⟩
  | .ok (mv, sid, uid, uem) =>
    match validMessage mv with
    | none => ⟨.badRequest "Valid message is required", []⟩
    | some message => postValidated sid uid uem message env

/-! ### Helper lemmas -/

theorem string_append_empty (s : String) : s ++ "" = s := by
  cases s with
  | mk l => show String.mk (l ++ []) = String.mk l; rw [List.append_nil]

theorem isPropertyQuery_of_keyword {q kw : String}
    (hmem : kw ∈ propertyKeywords)
    (hsub : isSub (jsToLower kw).data (jsToLower q).data = true) :
    isPropertyQuery q = true := by
  unfold isPropertyQuery
  exact List.any_eq_true.mpr ⟨kw, hmem, hsub⟩

theorem isPropertyQuery_eq_false {q : String}
    (h : ∀ kw ∈ propertyKeywords,
      jsIncludes (jsToLower q) (jsToLower kw) = false) :
    isPropertyQuery q = false := by
  unfold isPropertyQuery
  exact List.any_eq_false.mpr (fun kw hkw => by simp [h kw hkw])

/-! ### Claim theorems -/

/-- C9: property classification is raw case-insensitive substring
containment: any query containing a keyword of the fixed set as a
substring — even inside a larger word — is classified property-related,
and the handler then issues the search request (it is the first outbound
request of context assembly). -/
theorem substring_classification (q kw : String)
    (hmem : kw ∈ propertyKeywords)
    (hsub : isSub (jsToLower kw).data (jsToLower q).data = true) :
    isPropertyQuery q = true ∧
    ∀ env : Env, (propertyEffects env q).head? = some (.searchProps q 3) := by
  have hq := isPropertyQuery_of_keyword hmem hsub
  refine ⟨hq, fun env => ?_⟩
  unfold propertyEffects
  rw [hq]
  simp

/-- Witness for C9 at the example input: "transfer" contains the keyword
"sf" inside a larger word and is classified property-related. -/
theorem substring_classification_witness :
    "sf" ∈ propertyKeywords ∧
    isSub (jsToLower "sf").data (jsToLower "transfer").data = true ∧
    isPropertyQuery "transfer" = true := by
  refine ⟨by decide, by decide, ?_⟩
  exact (substring_classification "transfer" "sf" (by decide) (by decide)).1

/-- C3: a query matching no keyword of the fixed set yields an empty
dynamic section, so the assembled context is exactly the static-only
baseline, whatever the external services would have answered. -/
theorem static_only_context (q : String)
    (h : ∀ kw ∈ propertyKeywords,
      jsIncludes (jsToLower q) (jsToLower kw) = false) :
    ∀ env : Env,
      getPropertyContext env q = "" ∧
      staticContext ++ getPropertyContext env q = staticContext := by
  intro env
  have hq := isPropertyQuery_eq_false h
  have hempty : getPropertyContext env q = "" := by
    unfold getPropertyContext
    rw [hq]
    simp
  exact ⟨hempty, by rw [hempty, string_append_empty]⟩

/-- Witness for C3 at a concrete non-property query. -/
theorem static_only_context_witness :
    (∀ kw ∈ propertyKeywords,
      jsIncludes (jsToLower "hello, how are you today?") (jsToLower kw) = false) ∧
    staticContext ++
      getPropertyContext ⟨.thrown, .thrown, .thrown, .thrown, .thrown, none⟩
        "hello, how are you today?" = staticContext := by
  refine ⟨by decide, ?_⟩
  exact (static_only_context "hello, how are you today?" (by decide)
    ⟨.thrown, .thrown, .thrown, .thrown, .thrown, none⟩).2

/-- C5: for a property-related query, any failure contacting the
retrieval service — a thrown error or a non-success HTTP status on the
search call — is swallowed inside `getPropertyContext`, which returns the
empty string; the assembled context is then the static baseline and the
system message of the turn carries static context only. -/
theorem retrieval_failure_swallowed (env : Env) (q : String)
    (hq : isPropertyQuery q = true)
    (hfail : env.search = .httpErr ∨ env.search = .thrown) :
    getPropertyContext env q = "" ∧
    staticContext ++ getPropertyContext env q = staticContext ∧
    ∀ cur : Option String,
      (outboundMessages cur env q).head?
        = some ⟨"system", systemPrompt staticContext⟩ := by
  have hempty : getPropertyContext env q = "" := by
    unfold getPropertyContext
    rw [hq]
    rcases hfail with hf | hf <;> simp [hf]
  refine ⟨hempty, by rw [hempty, string_append_empty], fun cur => ?_⟩
  unfold outboundMessages
  rw [hempty, string_append_empty]
  rfl

/-- Witness for C5: a property query against a search service that
answers with a non-success status. -/
theorem retrieval_failure_swallowed_witness :
    isPropertyQuery "what is the rent?" = true ∧
    getPropertyContext ⟨.ok "s", .ok [], .ok (), .httpErr, .thrown, none⟩
      "what is the rent?" = "" := by
  refine ⟨by decide, ?_⟩
  exact (retrieval_failure_swallowed
    ⟨.ok "s", .ok [], .ok (), .httpErr, .thrown, none⟩
    "what is the rent?" (by decide) (Or.inl rfl)).1

/-- C6: the title sent on session creation is the first message itself
when it has at most 50 characters, and its first 50 characters followed
by the three-character ellipsis marker `...` otherwise — so any longer
first message (in particular a 60-character one) yields a stored title of
exactly 53 characters. The first conjunct shows the creation request of a
turn with no supplied session id carries exactly this title. -/
theorem title_truncation (m : String) :
    (∀ (uid uem : Option String) (env : Env),
      (resolveSession none uid uem m env).2
        = [Effect.createSession uid uem (sessionTitle m)]) ∧
    (m.length ≤ 50 → sessionTitle m = m) ∧
    (50 < m.length →
      sessionTitle m = String.mk (m.data.take 50) ++ "..." ∧
      (sessionTitle m).length = 53) := by
  refine ⟨fun uid uem env => ?_, fun hle => ?_, fun hgt => ?_⟩
  · unfold resolveSession
    simp only [jsTruthy, Option.getD]
    cases env.sessionCreate <;> rfl
  · unfold sessionTitle
    rw [if_neg (by omega)]
  · have heq : sessionTitle m = String.mk (m.data.take 50) ++ "..." := by
      unfold sessionTitle
      rw [if_pos hgt]
    refine ⟨heq, ?_⟩
    rw [heq]
    show (m.data.take 50 ++ "...".data).length = 53
    have hdata : m.data.length = m.length := rfl
    have hdots : "...".data.length = 3 := rfl
    rw [List.length_append, List.length_take, hdots]
    omega

/-- Witness for C6: a 60-character first message yields a 53-character
stored title. -/
theorem title_truncation_witness :
    50 < (String.mk (List.replicate 60 'a')).length ∧
    (sessionTitle (String.mk (List.replicate 60 'a'))).length = 53 :=
  ⟨by decide, ((title_truncation (String.mk (List.replicate 60 'a'))).2.2
    (by decide)).2⟩

theorem post_eq_of_valid {body : ReqBody} {env : Env} {mv : JSVal}
    {sid uid uem : Option String} {message : String}
    (hp : parseRequest body = .ok (mv, sid, uid, uem))
    (hv : validMessage mv = some message) :
    post body env = postValidated sid uid uem message env := by
  simp only [post, hp, hv]

theorem resolveSession_of_truthy {sid : Option String}
    (uid uem : Option String) (message : String) (env : Env)
    (h : jsTruthy sid = true) :
    resolveSession sid uid uem message env = (sid, []) := by
  unfold resolveSession
  rw [if_pos h]

theorem resolveSession_created {sid : Option String}
    (uid uem : Option String) (message : String) {env : Env} {ns : String}
    (h : jsTruthy sid = false) (hc : env.sessionCreate = .ok ns) :
    resolveSession sid uid uem message env
      = (some ns, [.createSession uid uem (sessionTitle message)]) := by
  unfold resolveSession
  rw [if_neg (by simp [h]), hc]

theorem resolveSession_failed {sid : Option String}
    (uid uem : Option String) (message : String) {env : Env}
    (h : jsTruthy sid = false)
    (hc : env.sessionCreate = .httpErr ∨ env.sessionCreate = .thrown) :
    resolveSession sid uid uem message env
      = (none, [.createSession uid uem (sessionTitle message)]) := by
  unfold resolveSession
  rw [if_neg (by simp [h])]
  rcases hc with hc | hc <;> rw [hc]

theorem postValidated_response {sid uid uem : Option String}
    {message : String} {env : Env} {t : String}
    (hm : env.model = some t) :
    (postValidated sid uid uem message env).response
      = .stream t ((resolveSession sid uid uem message env).1.getD "") := by
  unfold postValidated
  rw [hm]

/-- C7: a malformed request — a `messages` array not ending in a
user-role element, a body with neither shape, a non-string message value,
or an empty/whitespace-only message string — is rejected with a 400-class
response before any side effect: the outbound-request trace of such a
turn is empty, so no session is created, no history fetched and no
message persisted. -/
theorem malformed_request_rejected (env : Env) (sid uid uem : Option String) :
    (∀ msgs : List ChatTurn,
      (∀ last, msgs.getLast? = some last → ¬ last.role = "user") →
      post (.withMessages msgs sid uid uem) env
        = ⟨.badRequest "No user message found", []⟩) ∧
    (post .neither env
      = ⟨.badRequest "Invalid request format. Expected messages array or message string.", []⟩) ∧
    (∀ b : Bool, post (.withMessage (.vother b) sid uid uem) env
      = ⟨.badRequest (if b then "Valid message is required"
          else "Invalid request format. Expected messages array or message string."), []⟩) ∧
    (∀ s : String, jsTrim s = "" →
      post (.withMessage (.vstr s) sid uid uem) env
        = ⟨.badRequest (if s = "" then "Invalid request format. Expected messages array or message string."
            else "Valid message is required"), []⟩) ∧
    (∀ (msgs : List ChatTurn) (last : ChatTurn),
      msgs.getLast? = some last → last.role = "user" →
      validMessage last.content = none →
      post (.withMessages msgs sid uid uem) env
        = ⟨.badRequest "Valid message is required", []⟩) := by
  refine ⟨fun msgs h => ?_, rfl, fun b => ?_, fun s h => ?_,
    fun msgs last hl hr hv => ?_⟩
  · have hp : parseRequest (.withMessages msgs sid uid uem)
        = .error "No user message found" := by
      simp only [parseRequest]
      cases hl : msgs.getLast? with
      | none => rfl
      | some last => simp [h last hl]
    simp only [post, hp]
  · cases b with
    | false => rfl
    | true => rfl
  · by_cases hs : s = ""
    · subst hs; rfl
    · have hp : parseRequest (.withMessage (.vstr s) sid uid uem)
          = .ok (.vstr s, sid, uid, uem) := by
        simp [parseRequest, JSVal.truthy, hs]
      have hv : validMessage (.vstr s) = none := by
        simp [validMessage, hs, h]
      simp only [post, hp, hv, if_neg hs]
  · have hp : parseRequest (.withMessages msgs sid uid uem)
        = .ok (last.content, sid, uid, uem) := by
      simp [parseRequest, hl, hr]
    simp only [post, hp, hv]

/-- Witness for C7: a whitespace-only message is rejected with an empty
side-effect trace. -/
theorem malformed_request_rejected_witness :
    jsTrim "   " = "" ∧
    post (.withMessage (.vstr "   ") none none none)
        ⟨.thrown, .thrown, .thrown, .thrown, .thrown, none⟩
      = ⟨.badRequest (if "   " = "" then "Invalid request format. Expected messages array or message string."
          else "Valid message is required"), []⟩ :=
  ⟨by decide,
    (malformed_request_rejected ⟨.thrown, .thrown, .thrown, .thrown, .thrown, none⟩
      none none none).2.2.2.1 "   " (by decide)⟩

/-- C8: on every successful turn the resolved-or-created session id is
the `X-Session-Id` header value: a truthy supplied id is echoed back, and
when none was supplied and creation succeeds the header carries the
created id — non-empty whenever the service returned a non-empty id. -/
theorem session_header_propagation (body : ReqBody) (env : Env)
    (mv : JSVal) (sid uid uem : Option String) (message t : String)
    (hp : parseRequest body = .ok (mv, sid, uid, uem))
    (hv : validMessage mv = some message)
    (hm : env.model = some t) :
    (jsTruthy sid = true →
      (post body env).response = .stream t (sid.getD "")) ∧
    (jsTruthy sid = false → ∀ ns, env.sessionCreate = .ok ns →
      (post body env).response = .stream t ns ∧
      (ns ≠ "" → ∃ hdr, (post body env).response = .stream t hdr ∧ hdr ≠ "")) := by
  rw [post_eq_of_valid hp hv]
  constructor
  · intro h
    rw [postValidated_response hm, resolveSession_of_truthy uid uem message env h]
  · intro h ns hc
    have hr := resolveSession_created uid uem message h hc
    have hresp : (postValidated sid uid uem message env).response = .stream t ns := by
      rw [postValidated_response hm, hr]
      rfl
    exact ⟨hresp, fun hne => ⟨ns, hresp, hne⟩⟩

/-- Witness for C8: with no supplied session id and a creation call that
returns id `abc123`, the turn streams with header `abc123`. -/
theorem session_header_propagation_witness :
    (post (.withMessage (.vstr "hello") none none none)
        ⟨.ok "abc123", .ok [], .ok (), .thrown, .thrown, some "reply"⟩).response
      = .stream "reply" "abc123" :=
  ((session_header_propagation (.withMessage (.vstr "hello") none none none)
      ⟨.ok "abc123", .ok [], .ok (), .thrown, .thrown, some "reply"⟩
      (.vstr "hello") none none none "hello" "reply"
      rfl rfl rfl).2 (by decide) "abc123" rfl).1

/-- C1: when every degraded-class dependency fails — session creation,
history fetch, user-message append, property search and market summary
all thrown or non-success — a turn whose message validates still returns
the streamed model response whenever the model call succeeds: the
response is the stream of the model text (no 500, no exception escaping
the handler). -/
theorem degraded_failures_still_stream (body : ReqBody) (env : Env)
    (mv : JSVal) (sid uid uem : Option String) (message t : String)
    (hp : parseRequest body = .ok (mv, sid, uid, uem))
    (hv : validMessage mv = some message)
    (hc : env.sessionCreate = .httpErr ∨ env.sessionCreate = .thrown)
    (hh : env.historyFetch = .httpErr ∨ env.historyFetch = .thrown)
    (ha : env.appendUser = .httpErr ∨ env.appendUser = .thrown)
    (hs : env.search = .httpErr ∨ env.search = .thrown)
    (hk : env.market = .httpErr ∨ env.market = .thrown)
    (hm : env.model = some t) :
    (∃ hdr, (post body env).response = .stream t hdr) ∧
    (post body env).response ≠ .serverError ∧
    (∀ e, (post body env).response ≠ .badRequest e) := by
  rw [post_eq_of_valid hp hv]
  have hresp := @postValidated_response sid uid uem message env t hm
  refine ⟨⟨_, hresp⟩, ?_, ?_⟩
  · rw [hresp]; intro hcon; cases hcon
  · intro e; rw [hresp]; intro hcon; cases hcon

/-- Witness for C1: all five degraded dependencies thrown, model
succeeding with a non-empty reply — the turn still streams that reply. -/
theorem degraded_failures_still_stream_witness :
    (∃ hdr, (post (.withMessage (.vstr "hello") none none none)
        ⟨.thrown, .thrown, .thrown, .thrown, .thrown, some "model reply"⟩).response
      = .stream "model reply" hdr) ∧
    "model reply" ≠ "" :=
  ⟨(degraded_failures_still_stream (.withMessage (.vstr "hello") none none none)
      ⟨.thrown, .thrown, .thrown, .thrown, .thrown, some "model reply"⟩
      (.vstr "hello") none none none "hello" "model reply"
      rfl rfl (Or.inr rfl) (Or.inr rfl) (Or.inr rfl)
      (Or.inr rfl) (Or.inr rfl) rfl).1,
   by decide⟩

theorem postValidated_effects_truthy {sid : Option String}
    (uid uem : Option String) (message : String) (env : Env)
    (htr : jsTruthy sid = true) :
    ∃ tail, (postValidated sid uid uem message env).effects
      = Effect.fetchHistory (sid.getD "") ::
          Effect.appendUserMsg (sid.getD "") message ::
          (propertyEffects env message ++
            Effect.callModel (outboundMessages sid env message) :: tail) := by
  unfold postValidated
  rw [resolveSession_of_truthy uid uem message env htr]
  cases hm : env.model with
  | none => exact ⟨[], by simp [htr]⟩
  | some t =>
    exact ⟨if t = "" then [] else [Effect.appendAssistantMsg (sid.getD "") t],
      by simp [htr]⟩

/-- C2: on a turn over a session with more than 10 persisted messages,
the outbound model message list is exactly the system message carrying
the assembled context, then the last 10 persisted messages in original
order (role-mapped), then the new user message last; the truncated block
has exactly 10 elements, and the trace shows the history fetch issued
before the user-message append (so the fetched history cannot contain
the new user message). -/
theorem history_truncation (body : ReqBody) (env : Env)
    (mv : JSVal) (s : String) (uid uem : Option String) (message : String)
    (msgs : List HistoryMsg)
    (hp : parseRequest body = .ok (mv, some s, uid, uem))
    (hv : validMessage mv = some message)
    (hsne : s ≠ "")
    (hh : env.historyFetch = .ok msgs)
    (hlen : 10 < msgs.length) :
    outboundMessages (some s) env message
      = ⟨"system", systemPrompt (staticContext ++ getPropertyContext env message)⟩ ::
          ((msgs.drop (msgs.length - 10)).map toHistoryOut ++
            [⟨"user", message⟩]) ∧
    (msgs.drop (msgs.length - 10)).length = 10 ∧
    ∃ tail, (post body env).effects
      = Effect.fetchHistory s :: Effect.appendUserMsg s message ::
          (propertyEffects env message ++
            Effect.callModel (outboundMessages (some s) env message) :: tail) := by
  have htr : jsTruthy (some s) = true := by simp [jsTruthy, hsne]
  refine ⟨?_, ?_, ?_⟩
  · unfold outboundMessages historyForTurn truncatedHistory
    rw [htr, hh]
    simp
  · rw [List.length_drop]
    omega
  · rw [post_eq_of_valid hp hv]
    have := postValidated_effects_truthy uid uem message env htr
    simpa using this

/-- Witness for C2: a session with 15 persisted messages; the outbound
list is the system message, the last 10 persisted messages, and the new
user message — 12 messages in all. -/
theorem history_truncation_witness :
    ((List.range 15).map
        (fun i => (⟨"user", "m" ++ toString i⟩ : HistoryMsg))).length = 15 ∧
    outboundMessages (some "sess")
        ⟨.ok "x", .ok ((List.range 15).map
            (fun i => (⟨"user", "m" ++ toString i⟩ : HistoryMsg))),
          .ok (), .thrown, .thrown, some "r"⟩ "hello"
      = ⟨"system", systemPrompt (staticContext ++
          getPropertyContext ⟨.ok "x", .ok ((List.range 15).map
              (fun i => (⟨"user", "m" ++ toString i⟩ : HistoryMsg))),
            .ok (), .thrown, .thrown, some "r"⟩ "hello")⟩ ::
          ((((List.range 15).map
              (fun i => (⟨"user", "m" ++ toString i⟩ : HistoryMsg))).drop 5).map
            toHistoryOut ++ [⟨"user", "hello"⟩]) ∧
    (outboundMessages (some "sess")
        ⟨.ok "x", .ok ((List.range 15).map
            (fun i => (⟨"user", "m" ++ toString i⟩ : HistoryMsg))),
          .ok (), .thrown, .thrown, some "r"⟩ "hello").length = 12 := by
  refine ⟨by decide, ?_, by decide⟩
  have h := (history_truncation
    (.withMessage (.vstr "hello") (some "sess") none none)
    ⟨.ok "x", .ok ((List.range 15).map
        (fun i => (⟨"user", "m" ++ toString i⟩ : HistoryMsg))),
      .ok (), .thrown, .thrown, some "r"⟩
    (.vstr "hello") "sess" none none "hello"
    ((List.range 15).map (fun i => (⟨"user", "m" ++ toString i⟩ : HistoryMsg)))
    rfl rfl (by decide) rfl (by decide)).1
  simpa using h

/-- C10: in the messages-array request shape, only the last element is
ever consulted: two requests whose arrays share the same last element
(with the same session fields and environment) produce identical
responses and identical side-effect traces — every prior client-supplied
turn is discarded and never forwarded to the model. -/
theorem client_history_discarded (msgs1 msgs2 : List ChatTurn)
    (last : ChatTurn) (sid uid uem : Option String) (env : Env)
    (h1 : msgs1.getLast? = some last)
    (h2 : msgs2.getLast? = some last) :
    post (.withMessages msgs1 sid uid uem) env
      = post (.withMessages msgs2 sid uid uem) env := by
  have hpr : ∀ msgs : List ChatTurn, msgs.getLast? = some last →
      parseRequest (.withMessages msgs sid uid uem)
        = (if last.role = "user" then .ok (last.content, sid, uid, uem)
           else .error "No user message found") := by
    intro msgs h
    simp [parseRequest, h]
  simp only [post, hpr msgs1 h1, hpr msgs2 h2]

/-- Witness for C10: a three-turn client array and the singleton of its
last element yield the same turn result. -/
theorem client_history_discarded_witness :
    post (.withMessages
        [⟨"user", .vstr "old question"⟩, ⟨"assistant", .vstr "old answer"⟩,
         ⟨"user", .vstr "new question"⟩] none none none)
      ⟨.ok "sid", .ok [⟨"user", "persisted"⟩], .ok (), .thrown, .thrown,
        some "reply"⟩
      = post (.withMessages [⟨"user", .vstr "new question"⟩] none none none)
          ⟨.ok "sid", .ok [⟨"user", "persisted"⟩], .ok (), .thrown, .thrown,
            some "reply"⟩ :=
  client_history_discarded
    [⟨"user", .vstr "old question"⟩, ⟨"assistant", .vstr "old answer"⟩,
     ⟨"user", .vstr "new question"⟩]
    [⟨"user", .vstr "new question"⟩]
    ⟨"user", .vstr "new question"⟩ none none none
    ⟨.ok "sid", .ok [⟨"user", "persisted"⟩], .ok (), .thrown, .thrown,
      some "reply"⟩
    rfl rfl

/-! ### Digit-rendering helper lemmas (for counting the lines of the
market-overview block with arbitrary numeric field values) -/

theorem digitChar_ne_newline (m : Nat) : Nat.digitChar m ≠ '\n' := by
  by_cases h : m ≤ 15
  · interval_cases m <;> decide
  · unfold Nat.digitChar
    repeat rw [if_neg (by omega)]
    decide

theorem toDigitsCore_chars (b : Nat) :
    ∀ (fuel n : Nat) (ds : List Char) (c : Char),
      c ∈ Nat.toDigitsCore b fuel n ds → c ∈ ds ∨ ∃ m, c = Nat.digitChar m := by
  intro fuel
  induction fuel with
  | zero => intro n ds c hc; exact Or.inl hc
  | succ f ih =>
    intro n ds c hc
    simp only [Nat.toDigitsCore] at hc
    split at hc
    · rcases List.mem_cons.mp hc with h | h
      · exact Or.inr ⟨n % b, h⟩
      · exact Or.inl h
    · rcases ih (n / b) (Nat.digitChar (n % b) :: ds) c hc with h | h
      · rcases List.mem_cons.mp h with h' | h'
        · exact Or.inr ⟨n % b, h'⟩
        · exact Or.inl h'
      · exact Or.inr h

theorem repr_no_newline (n : Nat) : '\n' ∉ (Nat.repr n).data := by
  intro hmem
  have hd : (Nat.repr n).data = Nat.toDigits 10 n := rfl
  rw [hd] at hmem
  rcases toDigitsCore_chars 10 (n + 1) n [] '\n' hmem with h | ⟨m, hm⟩
  · cases h
  · exact digitChar_ne_newline m hm.symm

theorem toString_nat_newline_count (n : Nat) :
    (toString n).data.count '\n' = 0 :=
  List.count_eq_zero.mpr (repr_no_newline n)

/-- The market-overview block always consists of the `MARKET OVERVIEW:`
heading line plus exactly three numeric lines, whatever the summary
values are: it contains exactly 5 newline characters (one before and one
after the heading, one ending each of the three labeled lines; the
rendered numbers contain no newline). -/
theorem marketBlock_newline_count (s : MarketSummary) :
    (marketBlock s).data.count '\n' = 5 := by
  unfold marketBlock
  simp only [String.data_append, List.count_append,
    toString_nat_newline_count]
  decide

/-- Environment in which the property search succeeds with one result
but the market-summary call answers with a non-success HTTP status. -/
def envMarketDown : Env :=
  ⟨.ok "s1", .ok [], .ok (), .ok [⟨"123 Broadway, Floor 5"⟩], .httpErr,
    some "ok"⟩

/-- Environment in which the property search succeeds with one result
but the market-summary call throws. -/
def envMarketThrown : Env :=
  ⟨.ok "s1", .ok [], .ok (), .ok [⟨"123 Broadway, Floor 5"⟩], .thrown,
    some "ok"⟩

/-- A search payload of four results, one more than the requested limit
of 3. -/
def fourResults : List PropResult :=
  [⟨"r1"⟩, ⟨"r2"⟩, ⟨"r3"⟩, ⟨"r4"⟩]

/-- Environment in which the search call answers with four results and
the market-summary call succeeds. -/
def envFourResults : Env :=
  ⟨.ok "s1", .ok [], .ok (), .ok fourResults, .ok ⟨some 1, some 2, some 3⟩,
    some "ok"⟩

set_option maxRecDepth 10000

/-- C4 counterexample: three concrete refutations of the claim. A
property-related query whose search returns one result but whose
market-summary call answers with a non-success status yields a context
with the formatted record line yet no market-overview block at all. A
thrown market-summary call yields the empty dynamic context — zero
record lines despite a returned result. And a search payload of four
results yields four formatted record lines, not `min(limit, returned)`
= 3 of them: the handler renders one line per returned result with no
client-side clamp. -/
theorem market_block_missing_counterexample :
    isPropertyQuery "rent" = true ∧
    envMarketDown.search = .ok [⟨"123 Broadway, Floor 5"⟩] ∧
    getPropertyContext envMarketDown "rent"
      = "\n\nRELEVANT PROPERTY DATA:\n1. 123 Broadway, Floor 5\n" ++
          propertyTrailer ∧
    jsIncludes (staticContext ++ getPropertyContext envMarketDown "rent")
      "MARKET OVERVIEW" = false ∧
    getPropertyContext envMarketThrown "rent" = "" ∧
    (recordLines fourResults).length = 4 ∧
    min 3 fourResults.length = 3 ∧
    getPropertyContext envFourResults "rent"
      = "\n\nRELEVANT PROPERTY DATA:\n" ++
          String.join (recordLines fourResults) ++
          marketBlock ⟨some 1, some 2, some 3⟩ ++ propertyTrailer := by
  exact ⟨by decide, rfl, by decide, by decide, by decide, by decide,
    by decide, by decide⟩

/-- C4 as amended: for every property-related query whose search call
returns success with at least one result, the dynamic context carries
exactly one formatted record line per returned result — equal to
`min(limit, returned)` lines whenever the service returns at most the
requested limit of 3 — and the market-overview block is present exactly
when the market-summary call returns a success status: with it the
context is heading, record lines, market block (a heading line plus
exactly 3 numeric lines, witnessed by its newline count of 5) and
trailer; on a non-success market-summary status the record lines appear
without any market-overview block; and on a thrown market-summary call
the entire dynamic context is empty. -/
theorem dynamic_context_structure (env : Env) (q : String)
    (results : List PropResult)
    (hq : isPropertyQuery q = true)
    (hres : env.search = .ok results)
    (hne : results ≠ []) :
    (recordLines results).length = results.length ∧
    (results.length ≤ 3 →
      (recordLines results).length = min 3 results.length) ∧
    (∀ s, env.market = .ok s →
      getPropertyContext env q
        = "\n\nRELEVANT PROPERTY DATA:\n" ++ String.join (recordLines results)
            ++ marketBlock s ++ propertyTrailer ∧
      (marketBlock s).data.count '\n' = 5) ∧
    (env.market = .httpErr →
      getPropertyContext env q
        = "\n\nRELEVANT PROPERTY DATA:\n" ++ String.join (recordLines results)
            ++ propertyTrailer) ∧
    (env.market = .thrown → getPropertyContext env q = "") := by
  have hlen : ¬ results.length = 0 := by
    simpa [List.length_eq_zero] using hne
  have hcount : (recordLines results).length = results.length := by
    unfold recordLines
    rw [List.length_map, List.enum_length]
  refine ⟨hcount, fun hlim => ?_, fun s hmkt => ?_, fun hmkt => ?_,
    fun hmkt => ?_⟩
  · rw [hcount]
    exact (Nat.min_eq_right hlim).symm
  · refine ⟨?_, marketBlock_newline_count s⟩
    unfold getPropertyContext
    rw [hq, hres]
    simp [hlen, hmkt]
  · unfold getPropertyContext
    rw [hq, hres]
    simp [hlen, hmkt]
  · unfold getPropertyContext
    rw [hq, hres]
    simp [hlen, hmkt]

/-- Witness for the amended C4: a market-success environment with two
results yields the two record lines plus the market block, and the
non-success environment of the counterexample yields its record line
without the block. -/
theorem dynamic_context_structure_witness :
    isPropertyQuery "properties on broadway" = true ∧
    getPropertyContext
        ⟨.ok "s", .ok [], .ok (),
          .ok [⟨"123 Broadway, Floor 5"⟩, ⟨"500 Fifth Avenue, Suite 9"⟩],
          .ok ⟨some 225, some 1250000, some 15000⟩, some "ok"⟩
        "properties on broadway"
      = "\n\nRELEVANT PROPERTY DATA:\n" ++
          String.join (recordLines
            [⟨"123 Broadway, Floor 5"⟩, ⟨"500 Fifth Avenue, Suite 9"⟩]) ++
          marketBlock ⟨some 225, some 1250000, some 15000⟩ ++
          propertyTrailer ∧
    (recordLines
        [⟨"123 Broadway, Floor 5"⟩, ⟨"500 Fifth Avenue, Suite 9"⟩]).length
      = min 3 2 ∧
    getPropertyContext envMarketDown "rent"
      = "\n\nRELEVANT PROPERTY DATA:\n" ++
          String.join (recordLines [⟨"123 Broadway, Floor 5"⟩]) ++
          propertyTrailer := by
  refine ⟨by decide, ?_, ?_, ?_⟩
  · exact ((dynamic_context_structure
      ⟨.ok "s", .ok [], .ok (),
        .ok [⟨"123 Broadway, Floor 5"⟩, ⟨"500 Fifth Avenue, Suite 9"⟩],
        .ok ⟨some 225, some 1250000, some 15000⟩, some "ok"⟩
      "properties on broadway"
      [⟨"123 Broadway, Floor 5"⟩, ⟨"500 Fifth Avenue, Suite 9"⟩]
      (by decide) rfl (by decide)).2.2.1
      ⟨some 225, some 1250000, some 15000⟩ rfl).1
  · exact (dynamic_context_structure
      ⟨.ok "s", .ok [], .ok (),
        .ok [⟨"123 Broadway, Floor 5"⟩, ⟨"500 Fifth Avenue, Suite 9"⟩],
        .ok ⟨some 225, some 1250000, some 15000⟩, some "ok"⟩
      "properties on broadway"
      [⟨"123 Broadway, Floor 5"⟩, ⟨"500 Fifth Avenue, Suite 9"⟩]
      (by decide) rfl (by decide)).2.1 (by decide)
  · exact (dynamic_context_structure envMarketDown "rent"
      [⟨"123 Broadway, Floor 5"⟩]
      (by decide) rfl (by decide)).2.2.2.1 rfl

end ChatRoute
